import Mathlib

/-!
Shallow embedding of the k3s cluster bootstrap code (pkg/cluster and
pkg/clientaccess): the join-token codec, the trust-on-first-use CA
establishment flow, the managed storage driver selection, and the
bootstrap orchestration, together with theorems checking the
specification's claims against it.

Go strings are modelled as lists of characters, byte slices as lists of
naturals below 256, and each outbound effect (HTTP request, storage
load, stamp write) is recorded in an explicit event trace.  A fallible
Go call returning a (value, error) pair is modelled as an Except value:
(v, nil) becomes Except.ok v and (ignored, err) becomes Except.error err.
-/

abbrev GoString := List Char

/-- Model of Go strings.HasPrefix: goStartsWith pre s is true when s starts with pre. -/
def goStartsWith : GoString → GoString → Bool
  | [], _ => true
  | _ :: _, [] => false
  | a :: pre, b :: s => a == b && goStartsWith pre s

/-- Leftmost occurrence of sep inside s: returns the text before and after the
first occurrence, or none when sep does not occur.  This is the splitting core
of Go strings.SplitN(s, sep, 2): a some result means SplitN found two parts. -/
def findSplit (sep : GoString) : GoString → Option (GoString × GoString)
  | [] => if goStartsWith sep [] then some ([], []) else none
  | a :: rest =>
    if goStartsWith sep (a :: rest) then some ([], (a :: rest).drop sep.length)
    else
      match findSplit sep rest with
      | some (pre, post) => some (a :: pre, post)
      | none => none

/-- First component of Go strings.SplitN(s, sep, 2): the text before the first
occurrence of sep, or all of s when sep does not occur. -/
def splitN2first (sep s : GoString) : GoString :=
  match findSplit sep s with
  | some (pre, _) => pre
  | none => s

/-- Model of Go strings.Contains(s, sub). -/
def goContains (s sub : GoString) : Bool :=
  (findSplit sub s).isSome

/-- Error values produced by the embedded code.  wrap models
github.com/pkg/errors.Wrap, which keeps the cause available to errors.Is;
message models fmt.Errorf (no cause chain); serviceUnavailable is the
clientaccess.ErrServiceUnavailable sentinel returned for 503 responses. -/
inductive GoErr where
  | serviceUnavailable : GoErr
  | message : GoString → GoErr
  | wrap : GoString → GoErr → GoErr
deriving DecidableEq

/-- Model of errors.Is(err, clientaccess.ErrServiceUnavailable): true when the
sentinel is the error itself or appears in its Wrap cause chain. -/
def GoErr.isServiceUnavailable : GoErr → Bool
  | .serviceUnavailable => true
  | .message _ => false
  | .wrap _ e => e.isServiceUnavailable

/-- Rendered error text, as fmt would print it: pkg/errors renders a wrapped
error as "note: cause". -/
def GoErr.text : GoErr → GoString
  | .serviceUnavailable => "service unavailable".toList
  | .message m => m
  | .wrap note e => note ++ ": ".toList ++ e.text

/-- clientaccess.Info (https.go lines 547-553).  caHash is the unexported
fingerprint field carried from the token. -/
structure Info where
  CACerts : List Nat
  BaseURL : GoString
  Username : GoString
  Password : GoString
  caHash : GoString
deriving DecidableEq

/-- The literal token tag, Go constant tokenPrefix = "K10". -/
def tokenTag : GoString := ['K', '1', '0']

/-- The error returned by parseToken for a tagged token without a user and
password separator. -/
def invalidTokenFormat : GoErr := .message ("invalid token format".toList)

/-- Model of fmt.Sprintf(tokenFormat, tag, caHash, username, password) with
tokenFormat = "%s%s::%s:%s". -/
def tokenFormatStr (caHash username password : GoString) : GoString :=
  tokenTag ++ caHash ++ [ ':' , ':' ] ++ username ++ [ ':' ] ++ password

/-- parseToken from pkg/clientaccess (https.go lines 632-658): wrap an
untagged token into the token format, strip the tag, split off the CA hash at
the first double separator when present, then split the remainder at its first
single separator into username and password. -/
def parseToken (token : GoString) : Except GoErr Info :=
  let token1 := if goStartsWith tokenTag token then token else tokenFormatStr [] [] token
  let token2 := token1.drop tokenTag.length
  let hashAndRest :=
    match findSplit [ ':' , ':' ] token2 with
    | some (pre, post) => (pre, post)
    | none => (([] : GoString), token2)
  match findSplit [ ':' ] hashAndRest.2 with
  | none => .error invalidTokenFormat
  | some (user, pass) =>
    .ok { CACerts := [], BaseURL := [], Username := user, Password := pass, caHash := hashAndRest.1 }

/-! SHA-256, as used by crypto/sha256 Sum256, over bytes modelled as naturals.
All word arithmetic is Nat arithmetic reduced modulo 2^32. -/

/-- Reduce to a 32-bit word. -/
def w32 (x : Nat) : Nat := x % 4294967296

/-- Rotate a 32-bit word right by n bits. -/
def rotr32 (x n : Nat) : Nat := w32 ((x >>> n) ||| (x <<< (32 - n)))

def bigSigma0 (x : Nat) : Nat := rotr32 x 2 ^^^ rotr32 x 13 ^^^ rotr32 x 22

def bigSigma1 (x : Nat) : Nat := rotr32 x 6 ^^^ rotr32 x 11 ^^^ rotr32 x 25

def smallSigma0 (x : Nat) : Nat := rotr32 x 7 ^^^ rotr32 x 18 ^^^ (x >>> 3)

def smallSigma1 (x : Nat) : Nat := rotr32 x 17 ^^^ rotr32 x 19 ^^^ (x >>> 10)

def chFun (x y z : Nat) : Nat := (x &&& y) ^^^ ((x ^^^ 4294967295) &&& z)

def majFun (x y z : Nat) : Nat := (x &&& y) ^^^ (x &&& z) ^^^ (y &&& z)

/-- The 64 SHA-256 round constants. -/
def K256 : List Nat :=
  [1116352408, 1899447441, 3049323471, 3921009573, 961987163, 1508970993, 2453635748, 2870763221,
   3624381080, 310598401, 607225278, 1426881987, 1925078388, 2162078206, 2614888103, 3248222580,
   3835390401, 4022224774, 264347078, 604807628, 770255983, 1249150122, 1555081692, 1996064986,
   2554220882, 2821834349, 2952996808, 3210313671, 3336571891, 3584528711, 113926993, 338241895,
   666307205, 773529912, 1294757372, 1396182291, 1695183700, 1986661051, 2177026350, 2456956037,
   2730485921, 2820302411, 3259730800, 3345764771, 3516065817, 3600352804, 4094571909, 275423344,
   430227734, 506948616, 659060556, 883997877, 958139571, 1322822218, 1537002063, 1747873779,
   1955562222, 2024104815, 2227730452, 2361852424, 2428436474, 2756734187, 3204031479, 3329325298]

/-- The eight working words of the SHA-256 state, mirroring the digest struct. -/
structure Words8 where
  a : Nat
  b : Nat
  c : Nat
  d : Nat
  e : Nat
  f : Nat
  g : Nat
  h : Nat
deriving DecidableEq

/-- Initial SHA-256 hash state. -/
def initH : Words8 :=
  ⟨1779033703, 3144134277, 1013904242, 2773480762, 1359893119, 2600822924, 528734635, 1541459225⟩

/-- Pointwise 32-bit addition of two states. -/
def Words8.add (x y : Words8) : Words8 :=
  ⟨w32 (x.a + y.a), w32 (x.b + y.b), w32 (x.c + y.c), w32 (x.d + y.d),
   w32 (x.e + y.e), w32 (x.f + y.f), w32 (x.g + y.g), w32 (x.h + y.h)⟩

/-- Group bytes into big-endian 32-bit words. -/
def bytesToWords : List Nat → List Nat
  | b0 :: b1 :: b2 :: b3 :: rest =>
    (b0 * 16777216 + b1 * 65536 + b2 * 256 + b3) :: bytesToWords rest
  | _ => []

/-- Extend the 16-word message schedule by the given number of words. -/
def extendSchedule : Nat → List Nat → List Nat
  | 0, ws => ws
  | k + 1, ws =>
    let n := ws.length
    let next := w32 (smallSigma1 (ws.getD (n - 2) 0) + ws.getD (n - 7) 0 +
      smallSigma0 (ws.getD (n - 15) 0) + ws.getD (n - 16) 0)
    extendSchedule k (ws ++ [next])

/-- One SHA-256 compression round, consuming a round constant and a schedule word. -/
def sha256Round (st : Words8) (kw : Nat × Nat) : Words8 :=
  let t1 := w32 (st.h + bigSigma1 st.e + chFun st.e st.f st.g + kw.1 + kw.2)
  let t2 := w32 (bigSigma0 st.a + majFun st.a st.b st.c)
  ⟨w32 (t1 + t2), st.a, st.b, st.c, w32 (st.d + t1), st.e, st.f, st.g⟩

/-- Compress one 64-byte block into the running state. -/
def processBlock (st : Words8) (block : List Nat) : Words8 :=
  let ws := extendSchedule 48 (bytesToWords block)
  st.add ((K256.zip ws).foldl sha256Round st)

/-- Big-endian byte expansion: beBytes k n yields the k low-order bytes of n,
most significant first. -/
def beBytes : Nat → Nat → List Nat
  | 0, _ => []
  | k + 1, n => (n / 2 ^ (8 * k)) % 256 :: beBytes k n

/-- SHA-256 padding: a 128 byte, zeros to 56 mod 64, then the 64-bit
big-endian bit length. -/
def padMessage (msg : List Nat) : List Nat :=
  msg ++ 128 :: List.replicate ((119 - msg.length % 64) % 64) 0 ++ beBytes 8 (msg.length * 8)

/-- Cut a padded message into 64-byte blocks.  The first argument is fuel
bounding the number of steps; sha256Bytes passes the message length, which
always suffices. -/
def chunksGo : Nat → List Nat → List (List Nat)
  | 0, _ => []
  | _ + 1, [] => []
  | fuel + 1, x :: rest => (x :: rest).take 64 :: chunksGo fuel ((x :: rest).drop 64)

/-- crypto/sha256 Sum256: the 32-byte SHA-256 digest of a byte sequence. -/
def sha256Bytes (msg : List Nat) : List Nat :=
  let padded := padMessage msg
  let hv := (chunksGo padded.length padded).foldl processBlock initH
  beBytes 4 hv.a ++ beBytes 4 hv.b ++ beBytes 4 hv.c ++ beBytes 4 hv.d ++
    beBytes 4 hv.e ++ beBytes 4 hv.f ++ beBytes 4 hv.g ++ beBytes 4 hv.h

/-- The lowercase hex alphabet used by encoding/hex. -/
def hexTable : GoString := "0123456789abcdef".toList

/-- One hex digit: table lookup, as encoding/hex indexes its table.  Inputs are
always below 16; the default is never reached on byte input. -/
def hexDigit (n : Nat) : Char := hexTable.getD n '0'

/-- encoding/hex EncodeToString over bytes: high nibble then low nibble. -/
def hexEncode (bs : List Nat) : GoString :=
  bs.flatMap (fun b => [hexDigit (b / 16), hexDigit (b % 16)])

/-- hashCA from pkg/clientaccess (https.go lines 616-619): hex-encoded SHA-256
digest of a byte array. -/
def hashCA (cacerts : List Nat) : GoString := hexEncode (sha256Bytes cacerts)

/-- Info.String from pkg/clientaccess (https.go lines 556-558): the token
encoder, producing tag, CA bundle hash, double separator, username, single
separator, password. -/
def Info.string (info : Info) : GoString :=
  tokenFormatStr (hashCA info.CACerts) info.Username info.Password

/-! The network, filesystem and driver environment.  Every outbound HTTP
request made by the embedded code consults one oracle field of the World and
appends one Event to the trace, so a run's trace records exactly which
requests and fetches were performed. -/

/-- Outcome of one HTTP request as seen by the get helper: either a transport
failure or a status code with a response body. -/
inductive HTTPResult where
  | transportErr : GoString → HTTPResult
  | status : Nat → List Nat → HTTPResult
deriving DecidableEq

/-- The observable effects of a run. -/
inductive Event where
  | cacertsDefault : Event
  | cacertsInsecure : Event
  | cacertsValidate : Event
  | bootstrapFetch : Event
  | storageLoad : Event
  | stampWrite : Event
deriving DecidableEq

/-- get from pkg/clientaccess (https.go lines 761-785), applied to the outcome
of one request: a 503 response becomes the distinguished ErrServiceUnavailable,
any other non-200 status a generic error naming the status, and a 200 response
yields the body.  The URL that Go embeds in the generic error text is not
modelled. -/
def getResult (r : HTTPResult) : Except GoErr (List Nat) :=
  match r with
  | .transportErr m => .error (.message m)
  | .status code body =>
    if code = 503 then .error .serviceUnavailable
    else if code ≠ 200 then .error (.message ("request failed with status ".toList ++ (Nat.repr code).toList))
    else .ok body

/-- Decidable equality for Except results, used to compare modelled Go calls. -/
def exceptDecEq {ε α : Type} [DecidableEq ε] [DecidableEq α] : DecidableEq (Except ε α)
  | .ok a, .ok b =>
    if h : a = b then .isTrue (congrArg Except.ok h)
    else .isFalse (fun he => h (Except.ok.inj he))
  | .error a, .error b =>
    if h : a = b then .isTrue (congrArg Except.error h)
    else .isFalse (fun he => h (Except.error.inj he))
  | .ok _, .error _ => .isFalse (fun he => Except.noConfusion he)
  | .error _, .ok _ => .isFalse (fun he => Except.noConfusion he)

instance {ε α : Type} [DecidableEq ε] [DecidableEq α] : DecidableEq (Except ε α) := exceptDecEq

/-- A managed storage driver as seen by this code: its endpoint scheme name and
the outcome of its on-disk IsInitialized check in this run. -/
structure Driver where
  name : GoString
  isInitialized : Except GoErr Bool
deriving DecidableEq

/-- config.Control fields consulted by the embedded code. -/
structure Config where
  JoinURL : GoString
  Token : GoString
  DataDir : GoString
  DatastoreEndpoint : GoString
  ClusterInit : Bool
deriving DecidableEq

/-- The Cluster state mutated by the orchestrator: the assigned driver, the
resolved access info, and the runtime flags.  httpBootstrap is
runtime.HTTPBootstrap. -/
structure Cluster where
  config : Config
  managedDB : Option Driver
  clientAccessInfo : Option Info
  httpBootstrap : Bool
  joining : Bool
  shouldBootstrap : Bool
deriving DecidableEq

/-- The external world of one run: the response to each outbound request the
code can make, the storage-bootstrap collaborator's outcome, and which stamp
files exist on disk.  cacertsWithCA is the phase-3 response as a function of
the bundle the client was configured to trust; readBootstrap is the outcome of
decoding fetched bootstrap data (pkg/bootstrap, an external collaborator). -/
structure World where
  cacertsDefault : HTTPResult
  cacertsInsecure : HTTPResult
  cacertsWithCA : List Nat → HTTPResult
  serverBootstrap : HTTPResult
  readBootstrap : List Nat → Except GoErr Unit
  storageBootstrap : Except GoErr Unit
  stampPresent : GoString → Bool

/-- getCACerts from pkg/clientaccess (https.go lines 730-757), the three-phase
trust-on-first-use retrieval: a request with the default client (success means
ambient trust suffices and an empty bundle is returned); on any failure a
request with certificate verification disabled (failure is fatal, wrapped as
"failed to get CA certs"); then a request with a client trusting only the
retrieved bundle (failure is fatal, wrapped as "CA cert validation failed"). -/
def getCACerts (w : World) : Except GoErr (List Nat) × List Event :=
  match getResult w.cacertsDefault with
  | .ok _ => (.ok [], [.cacertsDefault])
  | .error _ =>
    match getResult w.cacertsInsecure with
    | .error e => (.error (.wrap ("failed to get CA certs".toList) e), [.cacertsDefault, .cacertsInsecure])
    | .ok cacerts =>
      match getResult (w.cacertsWithCA cacerts) with
      | .error e =>
        (.error (.wrap ("CA cert validation failed".toList) e),
         [.cacertsDefault, .cacertsInsecure, .cacertsValidate])
      | .ok _ => (.ok cacerts, [.cacertsDefault, .cacertsInsecure, .cacertsValidate])

/-- The scheme of a URL string as net/url parses it: the text before the first
single separator when one occurs, otherwise empty.  The embedded code only
compares this against https; the rest of net/url parsing is not modelled. -/
def urlScheme (s : GoString) : GoString :=
  match findSplit [ ':' ] s with
  | some (pre, _) => pre
  | none => []

/-- Info.setServer from pkg/clientaccess (https.go lines 694-716): reject
non-https URLs, retrieve the CA bundle, and record the base URL and bundle.
The trailing-slash normalization of the path is not modelled (the claims never
inspect BaseURL). -/
def Info.setServer (w : World) (info : Info) (server : GoString) : Except GoErr Info × List Event :=
  if urlScheme server ≠ "https".toList then
    (.error (.message ("only https:// URLs are supported, invalid scheme: ".toList ++ server)), [])
  else
    match getCACerts w with
    | (.error e, evs) => (.error e, evs)
    | (.ok cacerts, evs) => (.ok { info with BaseURL := server, CACerts := cacerts }, evs)

/-- validateCACerts from pkg/clientaccess (https.go lines 606-613): whether a
CA bundle matches the provided hash, together with the bundle's hash. -/
def validateCACerts (cacerts : List Nat) (hash : GoString) : Bool × GoString :=
  if cacerts = [] ∧ hash = [] then (true, [])
  else
    let newHash := hashCA cacerts
    (hash = newHash, newHash)

/-- The CA-hash mismatch error (https.go line 721), naming the declared hash
and the computed server hash. -/
def mismatchErr (declared computed : GoString) : GoErr :=
  .message ("token CA hash does not match the server CA hash: ".toList ++
    declared ++ " != ".toList ++ computed)

/-- Info.validateCAHash from pkg/clientaccess (https.go lines 719-725): fails
when the bundle hash disagrees with the token's declared hash, naming both
hashes in the error. -/
def Info.validateCAHash (info : Info) : Except GoErr Unit :=
  match validateCACerts info.CACerts info.caHash with
  | (true, _) => .ok ()
  | (false, serverHash) => .error (mismatchErr info.caHash serverHash)

/-- ParseAndValidateTokenForUser from pkg/clientaccess (https.go lines
583-602): parse the token, override the username, establish trust with the
server, and check the declared CA hash when one was supplied. -/
def ParseAndValidateTokenForUser (w : World) (server token username : GoString) :
    Except GoErr Info × List Event :=
  match parseToken token with
  | .error e => (.error e, [])
  | .ok info0 =>
    let info1 := { info0 with Username := username }
    match info1.setServer w server with
    | (.error e, evs) => (.error e, evs)
    | (.ok info2, evs) =>
      if info2.caHash ≠ [] then
        match info2.validateCAHash with
        | .error e => (.error e, evs)
        | .ok _ => (.ok info2, evs)
      else (.ok info2, evs)

/-- Modelled from the spec: keyHash is defined elsewhere in the repository
(only its caller bootstrapStamp is under src/).  Per the bootstrapStamp source
comment and spec section 6, the stamp name uses a portion of the hex SHA-256
fingerprint of the raw, unnormalized token text; the portion is modelled as the
first twelve hex characters. -/
def keyHash (token : GoString) : GoString :=
  (hexEncode (sha256Bytes (token.map Char.toNat))).take 12

/-- Cluster.bootstrapStamp (https.go lines 362-364): the stamp path under
dataDir/db, keyed off the raw token.  filepath.Join is modelled as separator
concatenation. -/
def Cluster.bootstrapStamp (c : Cluster) : GoString :=
  c.config.DataDir ++ "/db/joined-".toList ++ keyHash c.config.Token

/-- The username fixed by shouldBootstrapLoad for token validation. -/
def serverUser : GoString := "server".toList

/-- The fatal error for a missing token (https.go line 304);
version.ProgramUpper is K3S in this repository. -/
def missingTokenErr : GoErr := .message ("K3S_TOKEN is required to join a cluster".toList)

/-- The tail of Cluster.shouldBootstrapLoad (https.go lines 297-307), the code
after the managed-database block: if the stamp exists, bootstrap is already
complete; with a managed database and an empty token the missing-token error is
fatal; otherwise bootstrap data must be loaded. -/
def Cluster.shouldBootstrapTail (w : World) (c : Cluster) (evs : List Event) :
    Except GoErr Bool × Cluster × List Event :=
  if w.stampPresent c.bootstrapStamp then (.ok false, c, evs)
  else if c.managedDB.isSome ∧ c.config.Token = [] then (.error missingTokenErr, c, evs)
  else (.ok true, c, evs)

/-- Cluster.shouldBootstrapLoad (https.go lines 263-308).  With a managed
database: set the HTTP bootstrap flag; no join URL means no bootstrap; validate
the join token; on a ServiceUnavailable validation failure consult the driver's
IsInitialized and bypass (returning false with no error) only when it reports
true, returning the original validation error when it reports false or itself
errors (the latter is only logged); on success record the access info.  Then
fall through to the stamp and token checks. -/
def Cluster.shouldBootstrapLoad (w : World) (c : Cluster) :
    Except GoErr Bool × Cluster × List Event :=
  match c.managedDB with
  | some db =>
    let c1 : Cluster := { c with httpBootstrap := true }
    if c1.config.JoinURL = [] then (.ok false, c1, [])
    else
      match ParseAndValidateTokenForUser w c1.config.JoinURL c1.config.Token serverUser with
      | (.error err, evs) =>
        if err.isServiceUnavailable then
          match db.isInitialized with
          | .error _ => (.error err, c1, evs)
          | .ok true => (.ok false, c1, evs)
          | .ok false => (.error err, c1, evs)
        else (.error err, c1, evs)
      | (.ok info, evs) =>
        Cluster.shouldBootstrapTail w { c1 with clientAccessInfo := some info } evs
  | none => Cluster.shouldBootstrapTail w c []

/-- The loop over managed.Registered() in assignManagedDriver (https.go lines
444-451): the first driver whose IsInitialized reports true, propagating the
first IsInitialized error. -/
def findInitialized : List Driver → Except GoErr (Option Driver)
  | [] => .ok none
  | d :: ds =>
    match d.isInitialized with
    | .error e => .error e
    | .ok true => .ok (some d)
    | .ok false => findInitialized ds

/-- Cluster.assignManagedDriver (https.go lines 442-471): use a driver already
initialized on disk; otherwise a driver whose name matches the scheme of the
configured datastore endpoint; otherwise, with no endpoint and either the
cluster-init flag or both token and join URL, the registry's default driver.
The registry and default name model managed.Registered() and managed.Default().
-/
def assignManagedDriver (reg : List Driver) (defaultName : GoString) (c : Cluster) :
    Except GoErr Cluster :=
  match findInitialized reg with
  | .error e => .error e
  | .ok (some d) => .ok { c with managedDB := some d }
  | .ok none =>
    let endpointType := splitN2first [ ':' ] c.config.DatastoreEndpoint
    match reg.find? (fun d => d.name = endpointType) with
    | some d => .ok { c with managedDB := some d }
    | none =>
      if c.config.DatastoreEndpoint = [] ∧
          (c.config.ClusterInit ∨ (c.config.Token ≠ [] ∧ c.config.JoinURL ≠ [])) then
        match reg.find? (fun d => d.name = defaultName) with
        | some d => .ok { c with managedDB := some d }
        | none => .ok c
      else .ok c

/-- Cluster.httpBootstrap (https.go lines 334-341): an authenticated GET of the
server-bootstrap endpoint followed by decoding into the runtime bootstrap
struct (pkg/bootstrap Read, an external collaborator, modelled by the
readBootstrap oracle).  The request itself is the serverBootstrap oracle. -/
def Cluster.httpBootstrapFn (w : World) (_c : Cluster) : Except GoErr Unit × List Event :=
  match getResult w.serverBootstrap with
  | .error e => (.error e, [.bootstrapFetch])
  | .ok content => (w.readBootstrap content, [.bootstrapFetch])

/-- Cluster.bootstrap (https.go lines 344-357): set the joining flag, then
fetch over HTTP when the HTTP bootstrap flag is set, otherwise load from the
datastore (storageBootstrap, an external collaborator, modelled by the
storageBootstrap oracle). -/
def Cluster.bootstrapFn (w : World) (c : Cluster) : Except GoErr Unit × Cluster × List Event :=
  let c1 : Cluster := { c with joining := true }
  if c1.httpBootstrap then
    match c1.httpBootstrapFn w with
    | (r, evs) => (r, c1, evs)
  else (w.storageBootstrap, c1, [.storageLoad])

/-- Cluster.Bootstrap (https.go lines 240-259): assign a managed driver, decide
whether bootstrap data must be loaded, record the decision, and perform the
load when needed. -/
def Cluster.Bootstrap (w : World) (reg : List Driver) (defaultName : GoString) (c : Cluster) :
    Except GoErr Unit × Cluster × List Event :=
  match assignManagedDriver reg defaultName c with
  | .error e => (.error e, c, [])
  | .ok c1 =>
    match c1.shouldBootstrapLoad w with
    | (.error e, c2, evs) => (.error e, c2, evs)
    | (.ok sb, c2, evs) =>
      let c3 : Cluster := { c2 with shouldBootstrap := sb }
      if sb then
        match c3.bootstrapFn w with
        | (r, c4, evs2) => (r, c4, evs ++ evs2)
      else (.ok (), c3, evs)

/-- The filesystem state seen by Cluster.bootstrapped: which stamp paths exist,
and whether the MkdirAll or Create calls fail for reasons other than existence
(Go MkdirAll never fails merely because the directory exists). -/
structure FS where
  stampPresent : GoString → Bool
  mkdirFails : Bool
  createFails : Bool

/-- Cluster.bootstrapped (https.go lines 311-329), the stamp write behind
MarkBootstrapped: create the parent directory (idempotent), return immediately
when the stamp already exists, otherwise create it. -/
def Cluster.bootstrapped (fs : FS) (c : Cluster) : Except GoErr Unit × FS × List Event :=
  if fs.mkdirFails then (.error (.message ("mkdir failed".toList)), fs, [])
  else if fs.stampPresent c.bootstrapStamp then (.ok (), fs, [])
  else if fs.createFails then (.error (.message ("create failed".toList)), fs, [])
  else
    (.ok (),
     { fs with stampPresent := fun p => p = c.bootstrapStamp ∨ fs.stampPresent p },
     [.stampWrite])

/-! Helper lemmas about the string splitting primitives and the hash. -/

theorem goStartsWith_append (pre rest : GoString) : goStartsWith pre (pre ++ rest) = true := by
  induction pre with
  | nil => rfl
  | cons a l ih => simp [goStartsWith, ih]

theorem findSplit_of_startsWith (sep s : GoString) (h : goStartsWith sep s = true) :
    findSplit sep s = some ([], s.drop sep.length) := by
  cases s with
  | nil => simp [findSplit, h]
  | cons a t => simp [findSplit, h]

theorem findSplit_single (c : Char) (pre post : GoString) (h : c ∉ pre) :
    findSplit [c] (pre ++ c :: post) = some (pre, post) := by
  induction pre with
  | nil => simp [findSplit, goStartsWith]
  | cons a l ih =>
    rw [List.mem_cons, not_or] at h
    obtain ⟨h1, h2⟩ := h
    simp [findSplit, goStartsWith, h1, ih h2]

theorem findSplit_double (c : Char) (pre post : GoString) (h : c ∉ pre) :
    findSplit [c, c] (pre ++ c :: c :: post) = some (pre, post) := by
  induction pre with
  | nil => simp [findSplit, goStartsWith]
  | cons a l ih =>
    rw [List.mem_cons, not_or] at h
    obtain ⟨h1, h2⟩ := h
    simp [findSplit, goStartsWith, h1, ih h2]

theorem findSplit_single_none (c : Char) (l : GoString) : findSplit [c] l = none ↔ c ∉ l := by
  induction l with
  | nil => simp [findSplit, goStartsWith]
  | cons a t ih =>
    by_cases hca : c = a
    · subst hca
      simp [findSplit, goStartsWith]
    · cases hft : findSplit [c] t with
      | some pr => simp [findSplit, goStartsWith, hca, hft, (not_iff_not.mpr ih).mp (by simp [hft])]
      | none => simp [findSplit, goStartsWith, hca, hft, ih.mp hft]

theorem findSplit_isSome_append (sep a b : GoString) :
    (findSplit sep (a ++ (sep ++ b))).isSome = true := by
  induction a with
  | nil =>
    rw [List.nil_append, findSplit_of_startsWith sep (sep ++ b) (goStartsWith_append sep b)]
    rfl
  | cons x a ih =>
    by_cases hp : goStartsWith sep (x :: (a ++ (sep ++ b))) = true
    · simp [findSplit, hp]
    · rw [Bool.not_eq_true] at hp
      cases hft : findSplit sep (a ++ (sep ++ b)) with
      | none => rw [hft] at ih; simp at ih
      | some pr => simp [findSplit, hp, hft]

theorem beBytes_length (k n : Nat) : (beBytes k n).length = k := by
  induction k generalizing n with
  | zero => rfl
  | succ m ih => simp [beBytes, ih]

theorem sha256Bytes_length (msg : List Nat) : (sha256Bytes msg).length = 32 := by
  simp [sha256Bytes, beBytes_length]

theorem hexEncode_length (bs : List Nat) : (hexEncode bs).length = 2 * bs.length := by
  induction bs with
  | nil => rfl
  | cons b l ih =>
    simp [hexEncode] at ih ⊢
    omega

theorem hexDigit_ne_colon (n : Nat) : hexDigit n ≠ ':' := by
  by_cases h : n < 16
  · have hb : ∀ m, m < 16 → hexTable.getD m '0' ≠ ':' := by decide
    exact hb n h
  · have hlen : hexTable.length ≤ n := by
      have h16 : hexTable.length = 16 := by decide
      omega
    unfold hexDigit
    rw [List.getD_eq_default _ _ hlen]
    decide

theorem colon_not_mem_hexEncode (bs : List Nat) : ':' ∉ hexEncode bs := by
  intro h
  rw [hexEncode, List.mem_flatMap] at h
  obtain ⟨b, _, hb⟩ := h
  rcases List.mem_pair.mp hb with h1 | h1 <;> exact hexDigit_ne_colon _ h1.symm

theorem colon_not_mem_hashCA (bs : List Nat) : ':' ∉ hashCA bs :=
  colon_not_mem_hexEncode (sha256Bytes bs)

theorem hashCA_length (bs : List Nat) : (hashCA bs).length = 64 := by
  rw [hashCA, hexEncode_length, sha256Bytes_length]

/-! Helper lemmas about the codec. -/

theorem parseToken_untagged (s : GoString) (h : goStartsWith tokenTag s = false) :
    parseToken s = .ok { CACerts := [], BaseURL := [], Username := [], Password := s, caHash := [] } := by
  have h' : goStartsWith ['K', '1', '0'] s = false := h
  unfold parseToken
  simp [h', tokenFormatStr, tokenTag, findSplit, goStartsWith]

theorem parseToken_tokenFormatStr (h u p : GoString) (hh : ':' ∉ h) (hu : ':' ∉ u) :
    parseToken (tokenFormatStr h u p) =
      .ok { CACerts := [], BaseURL := [], Username := u, Password := p, caHash := h } := by
  have hshape : tokenFormatStr h u p = tokenTag ++ (h ++ ':' :: ':' :: (u ++ ':' :: p)) := by
    simp [tokenFormatStr, tokenTag]
  unfold parseToken
  rw [hshape, goStartsWith_append]
  simp only [if_true, tokenTag, List.cons_append, List.nil_append, List.length_cons,
    List.length_nil, List.drop_succ_cons, List.drop_zero]
  rw [findSplit_double ':' h (u ++ ':' :: p) hh]
  simp only
  rw [findSplit_single ':' u p hu]

/-! Claim theorems about the join-token codec. -/

/-- C4: Untagged-opaque: every string that does not start with the tag
(including strings containing single or double separators) decodes without
error to a token with empty CA hash, empty username, and the whole string as
password. -/
theorem untagged_token_passthrough (s : GoString) (h : goStartsWith tokenTag s = false) :
    parseToken s = .ok { CACerts := [], BaseURL := [], Username := [], Password := s, caHash := [] } :=
  parseToken_untagged s h

theorem untagged_token_passthrough_witness :
    goStartsWith tokenTag ("my::secret:token".toList) = false ∧
    parseToken ("my::secret:token".toList) =
      .ok ⟨[], [], [], "my::secret:token".toList, []⟩ :=
  ⟨by decide, untagged_token_passthrough ("my::secret:token".toList) (by decide)⟩

/-- C3: Round trip of the join-token codec: decoding an encoded Info with
non-empty username and no leading separator collisions reproduces username,
password, and the CA-hash segment the encoder emitted for the Info's CA bundle.
The absence of leading separator collisions is formalised as the username
containing no separator character: a separator inside the username would move
the leading username-password split and change the decoded fields.  (The
password needs no restriction: it is the greedy remainder.) -/
theorem decode_encode_roundtrip (info : Info) (_hne : info.Username ≠ [])
    (hu : ':' ∉ info.Username) :
    parseToken (Info.string info) =
      .ok { CACerts := [], BaseURL := [], Username := info.Username,
            Password := info.Password, caHash := hashCA info.CACerts } := by
  rw [Info.string]
  exact parseToken_tokenFormatStr _ _ _ (colon_not_mem_hashCA info.CACerts) hu

/-- A concrete Info for the round-trip witness. -/
def infoRT : Info := ⟨[], [], "admin".toList, "p@ss:word".toList, []⟩

theorem decode_encode_roundtrip_witness :
    (infoRT.Username ≠ []) ∧ ':' ∉ infoRT.Username ∧
    parseToken (Info.string infoRT) =
      .ok ⟨[], [], infoRT.Username, infoRT.Password, hashCA infoRT.CACerts⟩ :=
  ⟨by decide, by decide, decode_encode_roundtrip infoRT (by decide) (by decide)⟩

/-- The remainder of a token after stripping the tag and, when the double
separator occurs, the CA-hash segment before its first occurrence: the claim's
description of the text in which decoding looks for the single separator. -/
def strippedRest (s : GoString) : GoString :=
  match findSplit [ ':' , ':' ] (s.drop tokenTag.length) with
  | some (_, post) => post
  | none => s.drop tokenTag.length

/-- C5: Decode is total and raises exactly on malformed tagged input: decoding
fails, with the token-format error, precisely when the string starts with the
tag and the remainder after stripping the tag and the CA-hash segment contains
no single separator; every other string decodes successfully. -/
theorem decode_total_error_iff (s : GoString) :
    (parseToken s = .error invalidTokenFormat ↔
      goStartsWith tokenTag s = true ∧ ':' ∉ strippedRest s) ∧
    ((∃ info, parseToken s = .ok info) ↔
      ¬(goStartsWith tokenTag s = true ∧ ':' ∉ strippedRest s)) := by
  cases hp : goStartsWith tokenTag s with
  | false =>
    rw [parseToken_untagged s hp]
    simp [hp]
  | true =>
    unfold parseToken strippedRest
    simp only [hp, if_true]
    cases hd : findSplit [ ':' , ':' ] (s.drop tokenTag.length) with
    | some pr =>
      obtain ⟨pre, post⟩ := pr
      simp only [hd]
      cases hs : findSplit [ ':' ] post with
      | none =>
        have hnm : ':' ∉ post := (findSplit_single_none ':' post).mp hs
        simp [hs, hnm]
      | some up =>
        obtain ⟨user, pass⟩ := up
        have hmem : ':' ∈ post := by
          by_contra hnm
          rw [(findSplit_single_none ':' post).mpr hnm] at hs
          exact Option.noConfusion hs
        simp [hs, hmem]
    | none =>
      simp only [hd]
      cases hs : findSplit [ ':' ] (s.drop tokenTag.length) with
      | none =>
        have hnm : ':' ∉ s.drop tokenTag.length :=
          (findSplit_single_none ':' (s.drop tokenTag.length)).mp hs
        simp [hs, hnm]
      | some up =>
        obtain ⟨user, pass⟩ := up
        have hmem : ':' ∈ s.drop tokenTag.length := by
          by_contra hnm
          rw [(findSplit_single_none ':' (s.drop tokenTag.length)).mpr hnm] at hs
          exact Option.noConfusion hs
        simp [hs, hmem]

theorem decode_total_error_iff_witness :
    parseToken ("K10::nodelimiter".toList) = .error invalidTokenFormat :=
  (decode_total_error_iff ("K10::nodelimiter".toList)).1.mpr (by decide)

/-! Helper lemmas about the orchestrator: which events a phase can emit and
how each phase transforms the cluster state. -/

/-- A trace with no bootstrap-data fetch: neither the HTTP fetch of the
server-bootstrap endpoint nor the storage load appears. -/
def noFetch (evs : List Event) : Prop :=
  Event.bootstrapFetch ∉ evs ∧ Event.storageLoad ∉ evs

theorem getCACerts_noFetch (w : World) : noFetch (getCACerts w).2 := by
  unfold getCACerts noFetch
  repeat' split
  all_goals simp

theorem setServer_noFetch (w : World) (info : Info) (server : GoString) :
    noFetch (Info.setServer w info server).2 := by
  unfold Info.setServer
  split
  · exact ⟨by simp, by simp⟩
  · have hne := getCACerts_noFetch w
    rcases hca : getCACerts w with ⟨r, evs⟩
    rw [hca] at hne
    cases r <;> simpa using hne

theorem pavt_noFetch (w : World) (server token username : GoString) :
    noFetch (ParseAndValidateTokenForUser w server token username).2 := by
  unfold ParseAndValidateTokenForUser
  cases hpt : parseToken token with
  | error e => exact ⟨by simp, by simp⟩
  | ok info0 =>
    dsimp only
    have hss := setServer_noFetch w { info0 with Username := username } server
    rcases hs : Info.setServer w { info0 with Username := username } server with ⟨r, evs⟩
    rw [hs] at hss
    cases r with
    | error e => simpa using hss
    | ok info2 =>
      dsimp only
      split
      · split <;> simpa using hss
      · simpa using hss

theorem tail_trace (w : World) (c : Cluster) (evs : List Event) :
    (Cluster.shouldBootstrapTail w c evs).2.2 = evs := by
  unfold Cluster.shouldBootstrapTail
  repeat' split
  all_goals rfl

theorem sbl_noFetch (w : World) (c : Cluster) :
    noFetch (Cluster.shouldBootstrapLoad w c).2.2 := by
  unfold Cluster.shouldBootstrapLoad
  cases c.managedDB with
  | none => rw [tail_trace]; exact ⟨by simp, by simp⟩
  | some db =>
    dsimp only
    split
    · exact ⟨by simp, by simp⟩
    · have hpv := pavt_noFetch w c.config.JoinURL c.config.Token serverUser
      rcases hp : ParseAndValidateTokenForUser w c.config.JoinURL c.config.Token serverUser
        with ⟨r, evs⟩
      rw [hp] at hpv
      cases r with
      | error err =>
        dsimp only
        split
        · split <;> simpa using hpv
        · simpa using hpv
      | ok info => rw [tail_trace]; simpa using hpv

theorem assign_shape (reg : List Driver) (dn : GoString) (c c1 : Cluster)
    (h : assignManagedDriver reg dn c = .ok c1) : c1 = { c with managedDB := c1.managedDB } := by
  unfold assignManagedDriver at h
  dsimp only at h
  repeat' split at h
  all_goals first
    | exact Except.noConfusion h
    | (injection h with h2; subst h2; rfl)

theorem assign_config (reg : List Driver) (dn : GoString) (c c1 : Cluster)
    (h : assignManagedDriver reg dn c = .ok c1) : c1.config = c.config := by
  rw [assign_shape reg dn c c1 h]

theorem tail_of_stamp (w : World) (c : Cluster) (evs : List Event)
    (h : w.stampPresent c.bootstrapStamp = true) :
    Cluster.shouldBootstrapTail w c evs = (.ok false, c, evs) := by
  unfold Cluster.shouldBootstrapTail
  simp [h]

/-! Evaluation lemmas for shouldBootstrapLoad under each hypothesis shape, and
composition lemmas for Bootstrap. -/

theorem sbl_bypass (w : World) (c : Cluster) (d : Driver) (e : GoErr) (evs : List Event)
    (hdb : c.managedDB = some d) (hjoin : c.config.JoinURL ≠ [])
    (hval : ParseAndValidateTokenForUser w c.config.JoinURL c.config.Token serverUser =
      (.error e, evs))
    (hsu : e.isServiceUnavailable = true) (hinit : d.isInitialized = .ok true) :
    Cluster.shouldBootstrapLoad w c = (.ok false, { c with httpBootstrap := true }, evs) := by
  unfold Cluster.shouldBootstrapLoad
  rw [hdb]
  dsimp only
  rw [if_neg hjoin, hval]
  dsimp only
  rw [hsu, hinit]
  rfl

theorem sbl_su_initerr (w : World) (c : Cluster) (d : Driver) (e e2 : GoErr) (evs : List Event)
    (hdb : c.managedDB = some d) (hjoin : c.config.JoinURL ≠ [])
    (hval : ParseAndValidateTokenForUser w c.config.JoinURL c.config.Token serverUser =
      (.error e, evs))
    (hsu : e.isServiceUnavailable = true) (hinit : d.isInitialized = .error e2) :
    Cluster.shouldBootstrapLoad w c = (.error e, { c with httpBootstrap := true }, evs) := by
  unfold Cluster.shouldBootstrapLoad
  rw [hdb]
  dsimp only
  rw [if_neg hjoin, hval]
  dsimp only
  rw [hsu, hinit]
  rfl

theorem sbl_val_error (w : World) (c : Cluster) (d : Driver) (e : GoErr) (evs : List Event)
    (hdb : c.managedDB = some d) (hjoin : c.config.JoinURL ≠ [])
    (hval : ParseAndValidateTokenForUser w c.config.JoinURL c.config.Token serverUser =
      (.error e, evs))
    (hnsu : e.isServiceUnavailable = false) :
    Cluster.shouldBootstrapLoad w c = (.error e, { c with httpBootstrap := true }, evs) := by
  unfold Cluster.shouldBootstrapLoad
  rw [hdb]
  dsimp only
  rw [if_neg hjoin, hval]
  dsimp only
  rw [hnsu]
  rfl

theorem sbl_val_ok (w : World) (c : Cluster) (d : Driver) (info : Info) (evs : List Event)
    (hdb : c.managedDB = some d) (hjoin : c.config.JoinURL ≠ [])
    (hval : ParseAndValidateTokenForUser w c.config.JoinURL c.config.Token serverUser =
      (.ok info, evs)) :
    Cluster.shouldBootstrapLoad w c =
      Cluster.shouldBootstrapTail w
        { c with httpBootstrap := true, clientAccessInfo := some info } evs := by
  unfold Cluster.shouldBootstrapLoad
  rw [hdb]
  dsimp only
  rw [if_neg hjoin, hval]

theorem tail_missing_token (w : World) (c : Cluster) (evs : List Event)
    (hstamp : w.stampPresent c.bootstrapStamp = false)
    (hdb : c.managedDB.isSome = true) (htok : c.config.Token = []) :
    Cluster.shouldBootstrapTail w c evs = (.error missingTokenErr, c, evs) := by
  unfold Cluster.shouldBootstrapTail
  simp [hstamp, hdb, htok]

theorem bootstrap_sbl_error (w : World) (reg : List Driver) (dn : GoString)
    (c c1 c2 : Cluster) (e : GoErr) (evs : List Event)
    (hassign : assignManagedDriver reg dn c = .ok c1)
    (hsbl : c1.shouldBootstrapLoad w = (.error e, c2, evs)) :
    Cluster.Bootstrap w reg dn c = (.error e, c2, evs) := by
  unfold Cluster.Bootstrap
  rw [hassign]
  dsimp only
  rw [hsbl]

theorem bootstrap_sbl_false (w : World) (reg : List Driver) (dn : GoString)
    (c c1 c2 : Cluster) (evs : List Event)
    (hassign : assignManagedDriver reg dn c = .ok c1)
    (hsbl : c1.shouldBootstrapLoad w = (.ok false, c2, evs)) :
    Cluster.Bootstrap w reg dn c = (.ok (), { c2 with shouldBootstrap := false }, evs) := by
  unfold Cluster.Bootstrap
  rw [hassign]
  dsimp only
  rw [hsbl]
  rfl

theorem tail_not_true (w : World) (x : Cluster) (evs : List Event)
    (h : w.stampPresent x.bootstrapStamp = true) :
    (Cluster.shouldBootstrapTail w x evs).1 ≠ .ok true := by
  rw [tail_of_stamp w x evs h]
  simp

theorem sbl_stamp_not_true (w : World) (c : Cluster)
    (h : w.stampPresent c.bootstrapStamp = true) :
    (Cluster.shouldBootstrapLoad w c).1 ≠ .ok true := by
  unfold Cluster.shouldBootstrapLoad
  cases c.managedDB with
  | none => exact tail_not_true w c [] h
  | some db =>
    dsimp only
    split
    · simp
    · rcases hp : ParseAndValidateTokenForUser w c.config.JoinURL c.config.Token serverUser
        with ⟨r, evs⟩
      cases r with
      | error err =>
        dsimp only
        split
        · split <;> simp
        · simp
      | ok info =>
        dsimp only
        exact tail_not_true w _ evs h

theorem bootstrap_noFetch_of_stamp (w : World) (reg : List Driver) (dn : GoString) (c : Cluster)
    (hstamp : w.stampPresent c.bootstrapStamp = true) :
    noFetch (Cluster.Bootstrap w reg dn c).2.2 := by
  unfold Cluster.Bootstrap
  cases ha : assignManagedDriver reg dn c with
  | error e => exact ⟨by simp, by simp⟩
  | ok c1 =>
    have hcfg := assign_config reg dn c c1 ha
    have hstamp1 : w.stampPresent c1.bootstrapStamp = true := by
      unfold Cluster.bootstrapStamp
      rw [hcfg]
      exact hstamp
    have hnt := sbl_stamp_not_true w c1 hstamp1
    have hnf := sbl_noFetch w c1
    dsimp only
    rcases hs : c1.shouldBootstrapLoad w with ⟨r, c2, evs⟩
    rw [hs] at hnt hnf
    cases r with
    | error e => simpa using hnf
    | ok sb =>
      cases sb with
      | false => simpa using hnf
      | true => simp at hnt

/-! Claim theorems about the bootstrap orchestrator. -/

/-- C1: Quorum-loss bypass: when a managed driver is assigned, a join URL is
configured, token trust establishment fails with the ServiceUnavailable
condition, and the assigned driver's IsInitialized reports true, Bootstrap
returns success without performing any bootstrap-data fetch: neither the HTTP
fetch of the server-bootstrap endpoint nor the storage load appears in the
run's trace. -/
theorem quorum_loss_bypass (w : World) (reg : List Driver) (dn : GoString)
    (c c1 : Cluster) (d : Driver) (e : GoErr) (evs : List Event)
    (hassign : assignManagedDriver reg dn c = .ok c1)
    (hdb : c1.managedDB = some d)
    (hjoin : c.config.JoinURL ≠ [])
    (hval : ParseAndValidateTokenForUser w c.config.JoinURL c.config.Token serverUser =
      (.error e, evs))
    (hsu : e.isServiceUnavailable = true)
    (hinit : d.isInitialized = .ok true) :
    (Cluster.Bootstrap w reg dn c).1 = .ok () ∧
      Event.bootstrapFetch ∉ (Cluster.Bootstrap w reg dn c).2.2 ∧
      Event.storageLoad ∉ (Cluster.Bootstrap w reg dn c).2.2 := by
  have hcfg := assign_config reg dn c c1 hassign
  have hjoin1 : c1.config.JoinURL ≠ [] := by rw [hcfg]; exact hjoin
  have hval1 : ParseAndValidateTokenForUser w c1.config.JoinURL c1.config.Token serverUser =
      (.error e, evs) := by rw [hcfg]; exact hval
  have hsbl := sbl_bypass w c1 d e evs hdb hjoin1 hval1 hsu hinit
  have hboot := bootstrap_sbl_false w reg dn c c1 _ evs hassign hsbl
  have hnf := pavt_noFetch w c1.config.JoinURL c1.config.Token serverUser
  rw [hval1] at hnf
  rw [hboot]
  exact ⟨rfl, hnf.1, hnf.2⟩

/-- C2 counterexample fixtures: a managed driver is assigned (its on-disk state
is initialized), a join URL is configured, and the stamp for the raw token is
present; the server answers every request with 200. -/
def dC2 : Driver := ⟨"etcd".toList, .ok true⟩

def cC2 : Cluster :=
  ⟨⟨"https://peer:6443".toList, "tok".toList, "/data".toList, [], false⟩,
   none, none, false, false, false⟩

def wC2 : World :=
  ⟨.status 200 [], .status 200 [], fun _ => .status 200 [], .status 200 [],
   fun _ => .ok (), .ok (), fun _ => true⟩

/-- C2 counterexample: with the stamp present but a managed driver and join URL
configured, Bootstrap still performs network activity: the token-validation
request of the CA-certificate endpoint with the default client appears in the
trace, refuting "no network activity at all". -/
theorem stamp_present_still_network :
    wC2.stampPresent cC2.bootstrapStamp = true ∧
      (Cluster.Bootstrap wC2 [dC2] ("etcd".toList) cC2).1 = .ok () ∧
      Event.cacertsDefault ∈ (Cluster.Bootstrap wC2 [dC2] ("etcd".toList) cC2).2.2 :=
  ⟨rfl, rfl, by decide⟩

/-- C2 amended: when the stamp for the raw token is present, Bootstrap performs
no bootstrap-data fetch (neither the HTTP fetch nor the storage load runs); and
when additionally no managed driver is assigned, it returns success having
performed no network activity at all (an empty trace).  When a managed driver
and a join URL are configured, the token-validation requests to the CA
certificate endpoint are still issued before the stamp is consulted, and
Bootstrap's result follows that validation. -/
theorem stamp_present_no_refetch (w : World) (reg : List Driver) (dn : GoString) (c : Cluster)
    (hstamp : w.stampPresent c.bootstrapStamp = true) :
    (Event.bootstrapFetch ∉ (Cluster.Bootstrap w reg dn c).2.2 ∧
      Event.storageLoad ∉ (Cluster.Bootstrap w reg dn c).2.2) ∧
    (∀ c1, assignManagedDriver reg dn c = .ok c1 → c1.managedDB = none →
      Cluster.Bootstrap w reg dn c = (.ok (), { c1 with shouldBootstrap := false }, [])) := by
  constructor
  · exact bootstrap_noFetch_of_stamp w reg dn c hstamp
  · intro c1 hassign hnone
    have hcfg := assign_config reg dn c c1 hassign
    have hstamp1 : w.stampPresent c1.bootstrapStamp = true := by
      unfold Cluster.bootstrapStamp
      rw [hcfg]
      exact hstamp
    have hsbl : c1.shouldBootstrapLoad w = (.ok false, c1, []) := by
      unfold Cluster.shouldBootstrapLoad
      rw [hnone]
      exact tail_of_stamp w c1 [] hstamp1
    exact bootstrap_sbl_false w reg dn c c1 c1 [] hassign hsbl

/-- C2 amended witness fixtures: no registered drivers, stamp present. -/
def cC2w : Cluster :=
  ⟨⟨[], "tok".toList, "/data".toList, "mysql://db".toList, false⟩,
   none, none, false, false, false⟩

theorem stamp_present_no_refetch_witness :
    wC2.stampPresent cC2w.bootstrapStamp = true ∧
      Cluster.Bootstrap wC2 [] ("etcd".toList) cC2w =
        (.ok (), { cC2w with shouldBootstrap := false }, []) :=
  ⟨rfl, (stamp_present_no_refetch wC2 [] ("etcd".toList) cC2w rfl).2 cC2w rfl rfl⟩

/-- C1 witness fixtures: one registered driver whose on-disk state is
initialized, a join URL, and a server whose CA endpoint answers 503 both with
the default client and with verification disabled. -/
def dC1 : Driver := ⟨"etcd".toList, .ok true⟩

def cC1 : Cluster :=
  ⟨⟨"https://peer:6443".toList, "K10::u:p".toList, "/data".toList, [], false⟩,
   none, none, false, false, false⟩

def c1C1 : Cluster :=
  ⟨⟨"https://peer:6443".toList, "K10::u:p".toList, "/data".toList, [], false⟩,
   some dC1, none, false, false, false⟩

def wC1 : World :=
  ⟨.status 503 [], .status 503 [], fun _ => .status 200 [], .status 200 [],
   fun _ => .ok (), .ok (), fun _ => false⟩

def eC1 : GoErr := .wrap ("failed to get CA certs".toList) .serviceUnavailable

theorem quorum_loss_bypass_witness :
    (Cluster.Bootstrap wC1 [dC1] ("etcd".toList) cC1).1 = .ok () ∧
      Event.bootstrapFetch ∉ (Cluster.Bootstrap wC1 [dC1] ("etcd".toList) cC1).2.2 ∧
      Event.storageLoad ∉ (Cluster.Bootstrap wC1 [dC1] ("etcd".toList) cC1).2.2 :=
  quorum_loss_bypass wC1 [dC1] ("etcd".toList) cC1 c1C1 dC1 eC1
    [.cacertsDefault, .cacertsInsecure] rfl rfl (by decide) rfl rfl rfl

/-- C10: when token validation fails with the ServiceUnavailable condition but
the assigned driver's IsInitialized check itself errors, the bypass is not
taken: shouldBootstrapLoad returns the original token-validation error (the
initialization-check error is only logged), and any Bootstrap run whose driver
assignment produces this cluster state fails with that same original error. -/
theorem bypass_not_taken_on_init_error (w : World) (c : Cluster) (d : Driver)
    (err e2 : GoErr) (evs : List Event)
    (hdb : c.managedDB = some d)
    (hjoin : c.config.JoinURL ≠ [])
    (hval : ParseAndValidateTokenForUser w c.config.JoinURL c.config.Token serverUser =
      (.error err, evs))
    (hsu : err.isServiceUnavailable = true)
    (hinit : d.isInitialized = .error e2) :
    (Cluster.shouldBootstrapLoad w c).1 = .error err ∧
      (∀ reg dn c0, assignManagedDriver reg dn c0 = .ok c →
        (Cluster.Bootstrap w reg dn c0).1 = .error err) := by
  have hsbl := sbl_su_initerr w c d err e2 evs hdb hjoin hval hsu hinit
  constructor
  · rw [hsbl]
  · intro reg dn c0 ha
    rw [bootstrap_sbl_error w reg dn c0 c _ err evs ha hsbl]

/-- C10 witness fixtures: the assigned driver's IsInitialized errors. -/
def dC10 : Driver := ⟨"etcd".toList, .error (.message ("disk failure".toList))⟩

def cC10 : Cluster :=
  ⟨⟨"https://peer:6443".toList, "K10::u:p".toList, "/data".toList, [], false⟩,
   some dC10, none, false, false, false⟩

theorem bypass_not_taken_on_init_error_witness :
    (Cluster.shouldBootstrapLoad wC1 cC10).1 = .error eC1 :=
  (bypass_not_taken_on_init_error wC1 cC10 dC10 eC1 (.message ("disk failure".toList))
    [.cacertsDefault, .cacertsInsecure] rfl (by decide) rfl rfl rfl).1

/-- C8 counterexample fixtures: no registered drivers (so no managed driver is
assigned), a datastore endpoint configured, no token, no stamp; the storage
bootstrap collaborator succeeds. -/
def cC8 : Cluster :=
  ⟨⟨[], [], "/data".toList, "mysql://db".toList, false⟩, none, none, false, false, false⟩

def wC8 : World :=
  ⟨.status 200 [], .status 200 [], fun _ => .status 200 [], .status 200 [],
   fun _ => .ok (), .ok (), fun _ => false⟩

/-- C8 counterexample: with no managed driver assigned, a configured datastore
endpoint, and no token, Bootstrap succeeds (loading from the datastore) rather
than failing with the missing-token error: the code's token check fires only
when a managed driver IS assigned (https.go line 303). -/
theorem no_driver_no_token_check :
    cC8.config.DatastoreEndpoint ≠ [] ∧ cC8.config.Token = [] ∧
      (Cluster.Bootstrap wC8 [] ("etcd".toList) cC8).2.1.managedDB = none ∧
      (Cluster.Bootstrap wC8 [] ("etcd".toList) cC8).1 = .ok () :=
  ⟨by decide, rfl, rfl, rfl⟩

/-- C8 amended: the missing-token error is raised in the managed-driver case:
when a managed driver is assigned, a join URL is configured, token validation
succeeds, the stamp is absent, and the configured token is empty, Bootstrap
fails with the missing-token error.  With no managed driver assigned the code
performs no token check at all. -/
theorem missing_token_fatal (w : World) (reg : List Driver) (dn : GoString)
    (c c1 : Cluster) (d : Driver) (info : Info) (evs : List Event)
    (hassign : assignManagedDriver reg dn c = .ok c1)
    (hdb : c1.managedDB = some d)
    (hjoin : c.config.JoinURL ≠ [])
    (hval : ParseAndValidateTokenForUser w c.config.JoinURL c.config.Token serverUser =
      (.ok info, evs))
    (hstamp : w.stampPresent c.bootstrapStamp = false)
    (htok : c.config.Token = []) :
    (Cluster.Bootstrap w reg dn c).1 = .error missingTokenErr := by
  have hcfg := assign_config reg dn c c1 hassign
  have hjoin1 : c1.config.JoinURL ≠ [] := by rw [hcfg]; exact hjoin
  have hval1 : ParseAndValidateTokenForUser w c1.config.JoinURL c1.config.Token serverUser =
      (.ok info, evs) := by rw [hcfg]; exact hval
  have hsbl := sbl_val_ok w c1 d info evs hdb hjoin1 hval1
  have hstamp1 : w.stampPresent
      (Cluster.bootstrapStamp { c1 with httpBootstrap := true, clientAccessInfo := some info }) =
      false := by
    show w.stampPresent c1.bootstrapStamp = false
    unfold Cluster.bootstrapStamp
    rw [hcfg]
    exact hstamp
  have hdb1 : ({ c1 with httpBootstrap := true, clientAccessInfo := some info } :
      Cluster).managedDB.isSome = true := by
    show c1.managedDB.isSome = true
    rw [hdb]
    rfl
  have htok1 : ({ c1 with httpBootstrap := true, clientAccessInfo := some info } :
      Cluster).config.Token = [] := by
    show c1.config.Token = []
    rw [hcfg]
    exact htok
  have htail := tail_missing_token w
    { c1 with httpBootstrap := true, clientAccessInfo := some info } evs hstamp1 hdb1 htok1
  rw [bootstrap_sbl_error w reg dn c c1 _ missingTokenErr evs hassign (hsbl.trans htail)]

/-- C8 amended witness fixtures: one initialized driver, a join URL, an empty
token, no stamp. -/
def cC8w : Cluster :=
  ⟨⟨"https://peer:6443".toList, [], "/data".toList, [], false⟩, none, none, false, false, false⟩

def c1C8w : Cluster :=
  ⟨⟨"https://peer:6443".toList, [], "/data".toList, [], false⟩, some dC1, none, false, false, false⟩

def infoC8w : Info :=
  ⟨[], "https://peer:6443".toList, "server".toList, [], []⟩

theorem missing_token_fatal_witness :
    (Cluster.Bootstrap wC8 [dC1] ("etcd".toList) cC8w).1 = .error missingTokenErr :=
  missing_token_fatal wC8 [dC1] ("etcd".toList) cC8w c1C8w dC1 infoC8w
    [.cacertsDefault] rfl rfl (by decide) rfl rfl rfl

theorem pavt_mismatch (w : World) (server token username : GoString) (info0 : Info)
    (cacerts : List Nat) (evs : List Event)
    (hparse : parseToken token = .ok info0)
    (hhash : info0.caHash ≠ [])
    (hscheme : urlScheme server = "https".toList)
    (hca : getCACerts w = (.ok cacerts, evs))
    (hmm : hashCA cacerts ≠ info0.caHash) :
    ParseAndValidateTokenForUser w server token username =
      (.error (mismatchErr info0.caHash (hashCA cacerts)), evs) := by
  have hne : info0.caHash ≠ hashCA cacerts := fun h => hmm h.symm
  unfold ParseAndValidateTokenForUser
  rw [hparse]
  dsimp only
  unfold Info.setServer
  rw [if_neg (by simp [hscheme]), hca]
  dsimp only
  rw [if_pos hhash]
  simp [Info.validateCAHash, validateCACerts, hhash, hne]

/-- C6: CA-hash mismatch is fatal and diagnosable: when the token declares a
non-empty CA hash and the fetched bundle's SHA-256 hex digest differs from it,
token validation fails with the mismatch error, the error text contains both
the declared hash and the computed bundle hash, and a Bootstrap run reaching
this validation fails with the same error. -/
theorem ca_hash_mismatch_fatal (w : World) (reg : List Driver) (dn : GoString)
    (c c1 : Cluster) (d : Driver) (info0 : Info) (cacerts : List Nat) (evs : List Event)
    (hassign : assignManagedDriver reg dn c = .ok c1)
    (hdb : c1.managedDB = some d)
    (hjoin : c.config.JoinURL ≠ [])
    (hparse : parseToken c.config.Token = .ok info0)
    (hhash : info0.caHash ≠ [])
    (hscheme : urlScheme c.config.JoinURL = "https".toList)
    (hca : getCACerts w = (.ok cacerts, evs))
    (hmm : hashCA cacerts ≠ info0.caHash) :
    ParseAndValidateTokenForUser w c.config.JoinURL c.config.Token serverUser =
        (.error (mismatchErr info0.caHash (hashCA cacerts)), evs) ∧
      goContains (GoErr.text (mismatchErr info0.caHash (hashCA cacerts))) info0.caHash = true ∧
      goContains (GoErr.text (mismatchErr info0.caHash (hashCA cacerts))) (hashCA cacerts) = true ∧
      (Cluster.Bootstrap w reg dn c).1 = .error (mismatchErr info0.caHash (hashCA cacerts)) := by
  have hpv := pavt_mismatch w c.config.JoinURL c.config.Token serverUser info0 cacerts evs
    hparse hhash hscheme hca hmm
  refine ⟨hpv, ?_, ?_, ?_⟩
  · unfold goContains mismatchErr GoErr.text
    have hshape : "token CA hash does not match the server CA hash: ".toList ++
        info0.caHash ++ " != ".toList ++ hashCA cacerts =
        "token CA hash does not match the server CA hash: ".toList ++
          (info0.caHash ++ (" != ".toList ++ hashCA cacerts)) := by
      simp [List.append_assoc]
    rw [hshape]
    exact findSplit_isSome_append info0.caHash
      ("token CA hash does not match the server CA hash: ".toList)
      (" != ".toList ++ hashCA cacerts)
  · unfold goContains mismatchErr GoErr.text
    have hshape : "token CA hash does not match the server CA hash: ".toList ++
        info0.caHash ++ " != ".toList ++ hashCA cacerts =
        ("token CA hash does not match the server CA hash: ".toList ++ info0.caHash ++
          " != ".toList) ++ (hashCA cacerts ++ []) := by
      simp
    rw [hshape]
    exact findSplit_isSome_append (hashCA cacerts) _ []
  · have hcfg := assign_config reg dn c c1 hassign
    have hjoin1 : c1.config.JoinURL ≠ [] := by rw [hcfg]; exact hjoin
    have hval1 : ParseAndValidateTokenForUser w c1.config.JoinURL c1.config.Token serverUser =
        (.error (mismatchErr info0.caHash (hashCA cacerts)), evs) := by rw [hcfg]; exact hpv
    have hsbl := sbl_val_error w c1 d _ evs hdb hjoin1 hval1 rfl
    rw [bootstrap_sbl_error w reg dn c c1 _ _ evs hassign hsbl]

/-- C6 witness fixtures: token declaring hash abc, server bundle bytes 1,2,3
retrieved through the insecure phase after the default-client request fails. -/
def cC6 : Cluster :=
  ⟨⟨"https://peer:6443".toList, "K10abc::u:p".toList, "/data".toList, [], false⟩,
   none, none, false, false, false⟩

def c1C6 : Cluster :=
  ⟨⟨"https://peer:6443".toList, "K10abc::u:p".toList, "/data".toList, [], false⟩,
   some dC1, none, false, false, false⟩

def wC6 : World :=
  ⟨.status 500 [], .status 200 [1, 2, 3], fun _ => .status 200 [], .status 200 [],
   fun _ => .ok (), .ok (), fun _ => false⟩

def info0C6 : Info := ⟨[], [], "u".toList, "p".toList, "abc".toList⟩

theorem ca_hash_mismatch_fatal_witness :
    (Cluster.Bootstrap wC6 [dC1] ("etcd".toList) cC6).1 =
      .error (mismatchErr info0C6.caHash (hashCA [1, 2, 3])) :=
  (ca_hash_mismatch_fatal wC6 [dC1] ("etcd".toList) cC6 c1C6 dC1 info0C6 [1, 2, 3]
    [.cacertsDefault, .cacertsInsecure, .cacertsValidate] rfl rfl (by decide) rfl (by decide)
    rfl rfl
    (fun h => absurd (h ▸ hashCA_length [1, 2, 3]) (by decide))).2.2.2

/-- Stated from the claim, not the source: the three-step driver selection
priority, first match winning.  Step one takes a registered driver whose
on-disk state is initialized; step two a registered driver whose name equals
the scheme prefix of the configured datastore endpoint; step three, with an
empty endpoint and either the cluster-init flag or both token and join URL
set, the driver carrying the registry's default name; otherwise no managed
driver is selected. -/
def specDriverSelect (reg : List Driver) (defaultName : GoString) (cfg : Config) : Option Driver :=
  match reg.find? (fun d => match d.isInitialized with | .ok true => true | _ => false) with
  | some d => some d
  | none =>
    match reg.find? (fun d => d.name = splitN2first [ ':' ] cfg.DatastoreEndpoint) with
    | some d => some d
    | none =>
      if cfg.DatastoreEndpoint = [] ∧
          (cfg.ClusterInit ∨ (cfg.Token ≠ [] ∧ cfg.JoinURL ≠ [])) then
        reg.find? (fun d => d.name = defaultName)
      else none

theorem findInitialized_eq (reg : List Driver)
    (h : ∀ d ∈ reg, ∃ b, d.isInitialized = .ok b) :
    findInitialized reg = .ok (reg.find?
      (fun d => match d.isInitialized with | .ok true => true | _ => false)) := by
  induction reg with
  | nil => rfl
  | cons d ds ih =>
    obtain ⟨b, hb⟩ := h d (by simp)
    have ih2 := ih (fun x hx => h x (by simp [hx]))
    cases b with
    | true => simp [findInitialized, List.find?_cons, hb]
    | false => simp [findInitialized, List.find?_cons, hb, ih2]

/-- C7: Driver selection follows the strict three-step priority with the first
match winning: provided every registered driver's IsInitialized check reports
a result (rather than erroring) and no driver was previously assigned,
assignManagedDriver assigns exactly the driver chosen by the claim's selection
policy, and assigns none when the policy selects none. -/
theorem driver_selection_policy (reg : List Driver) (dn : GoString) (c : Cluster)
    (hok : ∀ d ∈ reg, ∃ b, d.isInitialized = .ok b) (hnone : c.managedDB = none) :
    assignManagedDriver reg dn c =
      .ok { c with managedDB := specDriverSelect reg dn c.config } := by
  unfold assignManagedDriver specDriverSelect
  rw [findInitialized_eq reg hok]
  dsimp only
  cases reg.find? (fun d => match d.isInitialized with | .ok true => true | _ => false) with
  | some d => rfl
  | none =>
    dsimp only
    cases reg.find? (fun d => decide (d.name = splitN2first [ ':' ] c.config.DatastoreEndpoint)) with
    | some d => rfl
    | none =>
      dsimp only
      by_cases hcond : c.config.DatastoreEndpoint = [] ∧
          (c.config.ClusterInit = true ∨ (c.config.Token ≠ [] ∧ c.config.JoinURL ≠ []))
      · rw [if_pos hcond, if_pos hcond]
        cases reg.find? (fun d => decide (d.name = dn)) with
        | some d => rfl
        | none =>
          dsimp only
          conv_rhs => rw [← hnone]
      · rw [if_neg hcond, if_neg hcond]
        conv_rhs => rw [← hnone]

/-- C7 witness fixtures: one registered driver, not initialized on disk, empty
datastore endpoint, cluster-init flag set: the default driver is selected. -/
def dC7 : Driver := ⟨"etcd".toList, .ok false⟩

def cC7 : Cluster :=
  ⟨⟨[], [], "/data".toList, [], true⟩, none, none, false, false, false⟩

theorem driver_selection_policy_witness :
    specDriverSelect [dC7] ("etcd".toList) cC7.config = some dC7 ∧
      assignManagedDriver [dC7] ("etcd".toList) cC7 =
        .ok { cC7 with managedDB := specDriverSelect [dC7] ("etcd".toList) cC7.config } :=
  ⟨by decide,
   driver_selection_policy [dC7] ("etcd".toList) cC7
     (by
       intro d hd
       rw [List.mem_singleton] at hd
       subst hd
       exact ⟨false, rfl⟩)
     rfl⟩

theorem bootstrapFn_joining (w : World) (c : Cluster) :
    (Cluster.bootstrapFn w c).2.1.joining = true := by
  unfold Cluster.bootstrapFn
  dsimp only
  split
  · rfl
  · rfl

theorem bootstrapped_idempotent (fs : FS) (c : Cluster) (fs' : FS) (evs : List Event)
    (h : Cluster.bootstrapped fs c = (.ok (), fs', evs)) :
    Cluster.bootstrapped fs' c = (.ok (), fs', []) := by
  unfold Cluster.bootstrapped at h ⊢
  by_cases hm : fs.mkdirFails = true
  · simp [hm] at h
  · rw [Bool.not_eq_true] at hm
    by_cases hp : fs.stampPresent c.bootstrapStamp = true
    · rw [if_neg (by simp [hm]), if_pos hp] at h
      simp only [Prod.mk.injEq] at h
      obtain ⟨-, h2, h3⟩ := h
      subst h2
      rw [if_neg (by simp [hm]), if_pos hp]
    · by_cases hc : fs.createFails = true
      · rw [if_neg (by simp [hm]), if_neg hp, if_pos hc] at h
        exact absurd h (by simp)
      · rw [if_neg (by simp [hm]), if_neg hp, if_neg hc] at h
        simp only [Prod.mk.injEq] at h
        obtain ⟨-, h2, h3⟩ := h
        subst h2
        rw [if_neg (by simp [hm]), if_pos (by simp)]

/-- C9 counterexample fixtures: the HTTP bootstrap flag is set and the
server-bootstrap request fails at transport level. -/
def cC9 : Cluster :=
  ⟨⟨"https://peer:6443".toList, "tok".toList, "/data".toList, [], false⟩,
   some dC1, none, true, false, false⟩

def wC9 : World :=
  ⟨.status 200 [], .status 200 [], fun _ => .status 200 [], .transportErr ("connection refused".toList),
   fun _ => .ok (), .ok (), fun _ => false⟩

/-- C9 counterexample: the joining flag does not record success of the fetch:
in a run where the HTTP bootstrap fetch is attempted and fails, the bootstrap
step returns the fetch error yet the joining flag is already true, because the
code sets the flag before fetching (https.go line 345). -/
theorem joining_set_before_fetch_success :
    (Cluster.bootstrapFn wC9 cC9).1 = .error (.message ("connection refused".toList)) ∧
      (Cluster.bootstrapFn wC9 cC9).2.1.joining = true ∧
      Event.bootstrapFetch ∈ (Cluster.bootstrapFn wC9 cC9).2.2 :=
  ⟨rfl, rfl, by decide⟩

/-- C9 amended: whenever a bootstrap fetch path is taken, the joining flag is
set to true at the start of the attempt, whether or not the fetch succeeds;
and the stamp write is an idempotent create: after any successful stamp write
(which also performs the idempotent directory creation), running it again
succeeds, changes nothing, and writes nothing. -/
theorem fetch_sets_joining_and_stamp_idempotent :
    (∀ w c, (Cluster.bootstrapFn w c).2.1.joining = true) ∧
      (∀ fs c fs' evs, Cluster.bootstrapped fs c = (.ok (), fs', evs) →
        Cluster.bootstrapped fs' c = (.ok (), fs', [])) :=
  ⟨bootstrapFn_joining, bootstrapped_idempotent⟩

/-- C9 amended witness fixtures: an empty filesystem, then the filesystem after
the first stamp write. -/
def fsC9 : FS := ⟨fun _ => false, false, false⟩

def fsC9' : FS :=
  ⟨fun p => p = cC8.bootstrapStamp ∨ fsC9.stampPresent p, false, false⟩

theorem fetch_sets_joining_and_stamp_idempotent_witness :
    Cluster.bootstrapped fsC9 cC8 = (.ok (), fsC9', [.stampWrite]) ∧
      Cluster.bootstrapped fsC9' cC8 = (.ok (), fsC9', []) :=
  ⟨rfl, fetch_sets_joining_and_stamp_idempotent.2 fsC9 cC8 fsC9' [.stampWrite] rfl⟩
